import Mathlib

/-!
Verification of the control-expression editor dialog (IOWindow.cpp) and the
control-expression language core it invokes.  Data types and operations are
shallowly embedded from the C++ source; components of the repository that are
only declared here (the expression lexer/parser/evaluator and the input
detector, which live in InputCommon) are modelled from the specification.
-/

namespace Dolphin

/-- Token types of the control-expression language, as used by
`ControlExpressionSyntaxHighlighter::Highlight` and described in the spec's
data model (parentheses, comma, question/colon, literals, controls, barewords,
variables, comments, the operator set, invalid). -/
inductive TokenType
  | TOK_INVALID
  | TOK_LPAREN
  | TOK_RPAREN
  | TOK_COMMA
  | TOK_QUESTION
  | TOK_COLON
  | TOK_LITERAL
  | TOK_CONTROL
  | TOK_BAREWORD
  | TOK_VARIABLE
  | TOK_COMMENT
  | TOK_NOT
  | TOK_MUL
  | TOK_DIV
  | TOK_MOD
  | TOK_ADD
  | TOK_SUB
  | TOK_GT
  | TOK_LT
  | TOK_AND
  | TOK_XOR
  | TOK_OR
  deriving DecidableEq, Repr

/-- A lexer token: type, byte offset into the (normalized) source text, byte
length, and the payload string for literals/barewords. -/
structure Token where
  type : TokenType
  string_position : Nat
  string_length : Nat
  data : String := ""
  deriving DecidableEq, Repr

/-- Parse/tokenize status, per the spec's
`parse_status() — one of {Successful, EmptyExpression, SyntaxError, TokenizeError}`. -/
inductive ParseStatus
  | Successful
  | SyntaxError
  | EmptyExpression
  | TokenizeError
  deriving DecidableEq, Repr

/-- Result of `ParseTokens`: a status together with the offending token when
the status is not `Successful` (a parse error always carries the offending
token's position). -/
structure ParseResult where
  status : ParseStatus
  token : Token

/-- The token-list computation of `ControlExpressionSyntaxHighlighter::Highlight`
(IOWindow.cpp lines 129-144): the lexed tokens, and, when tokenization
succeeded but parsing did not, one extra copy of the parser's offending token
with its type changed to `TOK_INVALID` for error highlighting.  The parser is
passed in abstractly since its implementation lives outside this file's
source. -/
def HighlightTokens (tokens : List Token) (tokenize_status : ParseStatus)
    (pt : List Token → ParseResult) : List Token :=
  if ParseStatus.Successful = tokenize_status then
    let parse_status := pt tokens
    if ParseStatus.Successful ≠ parse_status.status then
      tokens ++ [{ parse_status.token with type := TokenType.TOK_INVALID }]
    else
      tokens
  else
    tokens

/-- The state of the `m_parse_text` line edit: whether the live state
indicator is painted, and the status text shown. -/
structure ParseTextState where
  indicator : Bool
  text : String
  deriving DecidableEq, Repr

/-- The status-display dispatch at the end of `IOWindow::UpdateExpression`
(IOWindow.cpp lines 783-802): error message, empty-expression, other
non-successful status, or success. -/
def UpdateExpressionDisplay (error : Option String) (status : ParseStatus) :
    ParseTextState :=
  match error with
  | some e => ⟨false, e⟩
  | none =>
    if status = ParseStatus.EmptyExpression then ⟨false, ""⟩
    else if status ≠ ParseStatus.Successful then ⟨false, "Invalid Expression."⟩
    else ⟨true, ""⟩

/-- One Latin-1 byte per input character: Qt's `toLatin1` maps each Unicode
codepoint below 256 to itself and any other codepoint to a single byte
(the question mark, 0x3F). -/
def toLatin1Char (c : Nat) : Nat :=
  if c < 256 then c else 63

/-- The normalization applied in `ControlExpressionSyntaxHighlighter::Highlight`
(IOWindow.cpp line 129): `document->toPlainText().toLatin1()`, converting
multi-byte unicode characters to single-byte characters before lexing.  Text
is modelled as a list of Unicode codepoints. -/
def toLatin1 (text : List Nat) : List Nat :=
  text.map toLatin1Char

/-- The lexing step of `Highlight`: the lexer (abstract, it lives outside this
file's source) is run on the Latin-1 normalization of the editor text, never
on the original multi-byte encoding. -/
def HighlightLex (tokenize_fn : List Nat → List Token × ParseStatus)
    (text : List Nat) : List Token × ParseStatus :=
  tokenize_fn (toLatin1 text)

/-- Outcome of `ControlReference::SetExpression` followed by
`GetParseStatus`, abstracted: the optional error message, the parse status,
and an abstract identity for the compiled tree. -/
structure CompileResult where
  error : Option String
  status : ParseStatus
  tree : Nat
  deriving DecidableEq, Repr

/-- The control-reference fields IOWindow interacts with: current expression
text, parse status, error message, compiled-tree identity, and the range
multiplier. -/
structure RefState where
  expression : String
  status : ParseStatus
  error : Option String
  tree : Nat
  range : ℚ
  deriving DecidableEq, Repr

/-- The dialog state touched by the claims: the control reference, the
output-test timer, the last value written to the device output, the user
variable list shown in `m_variables_combo`, the `m_parse_text` status line,
and the stored original expression. -/
structure WinState where
  ref : RefState
  timerActive : Bool
  outputState : ℚ
  variablesList : List String
  parseText : ParseTextState
  originalExpression : String
  deriving DecidableEq, Repr

/-- The `TestOutputComplete` signal handler (IOWindow.cpp lines 561-566):
stop the output-test timer and write 0.0 to the control reference's state. -/
def TestOutputComplete (st : WinState) : WinState :=
  { st with timerActive := false, outputState := 0 }

/-- Update mode of `IOWindow::UpdateExpression`. -/
inductive UpdateMode
  | Normal
  | Force
  deriving DecidableEq, Repr

/-- Model of `IOWindow::UpdateExpression` (IOWindow.cpp lines 761-803): emit
`TestOutputComplete`; return early when not forced and the new text equals the
reference's current expression; otherwise recompile via `SetExpression`
(abstracted as `compile`), rebuild the user-variable list (abstracted as
`vars`, the controller's expression variables), and rewrite the status line
by the four-way dispatch `UpdateExpressionDisplay`. -/
def UpdateExpression (compile : String → CompileResult) (vars : List String)
    (new_expression : String) (mode : UpdateMode) (st : WinState) : WinState :=
  let st := TestOutputComplete st
  if mode ≠ UpdateMode.Force ∧ new_expression = st.ref.expression then
    st
  else
    let r := compile new_expression
    { st with
      ref := { st.ref with
               expression := new_expression
               status := r.status
               error := r.error
               tree := r.tree }
      variablesList := vars
      parseText := UpdateExpressionDisplay r.error r.status }

/-- Dialog type: configuring an input or an output reference. -/
inductive WindowType
  | Input
  | Output
  deriving DecidableEq, Repr

/-- The spinbox bound set in `IOWindow::CreateMainLayout` (IOWindow.cpp line
385): 1000 (percent) for inputs, 100 (percent) for outputs; the spinbox
minimum is its negation. -/
def scalar_min_max (t : WindowType) : Int :=
  if t = WindowType.Input then 1000 else 100

/-- Model of `IOWindow::OnRangeChanged` (IOWindow.cpp lines 659-663): set the control
reference's range to the committed percentage divided by 100, then emit
`TestOutputComplete`. -/
def OnRangeChanged (value : Int) (st : WinState) : WinState :=
  TestOutputComplete { st with ref := { st.ref with range := (value : ℚ) / 100 } }

/-- The `m_test_button` click handler (IOWindow.cpp lines 547-558): if the
output-test timer is already active, emit `TestOutputComplete` (stop); else
start the 2-second timer and write 1.0 to the reference's state. -/
def OnTestButtonClicked (st : WinState) : WinState :=
  if st.timerActive then TestOutputComplete st
  else { st with timerActive := true, outputState := 1 }

/-- Outcome of a dialog button press: the Clear button empties the editor, a
syntax error shows a modal warning and leaves the dialog open, anything else
accepts the dialog. -/
inductive ButtonOutcome
  | ClearedText
  | Warned
  | Accepted
  deriving DecidableEq, Repr

/-- Model of `IOWindow::OnDialogButtonPressed` (IOWindow.cpp lines 635-657): the Clear
button just clears the editor text; any other button recompiles the current
editor text via `UpdateExpression`, then either warns on a `SyntaxError`
parse status or overwrites the stored original expression with the
reference's expression and accepts. -/
def OnDialogButtonPressed (compile : String → CompileResult) (vars : List String)
    (is_clear : Bool) (editor_text : String) (st : WinState) :
    WinState × ButtonOutcome :=
  if is_clear then
    (st, ButtonOutcome.ClearedText)
  else
    let st := UpdateExpression compile vars editor_text UpdateMode.Normal st
    if st.ref.status = ParseStatus.SyntaxError then
      (st, ButtonOutcome.Warned)
    else
      ({ st with originalExpression := st.ref.expression }, ButtonOutcome.Accepted)

/-- The events that end or interrupt a running output test: the 2-second
timer expiring (IOWindow.cpp line 559), clicking the test button again while
active (line 551), changing the range (line 662), calling `UpdateExpression`
(line 763), and the dialog closing, which reverts to the original expression
(line 613). -/
inductive TestEndEvent
  | timerExpired
  | testButtonClicked
  | rangeChanged (value : Int)
  | updateExpressionCalled (compile : String → CompileResult)
      (vars : List String) (new_expression : String) (mode : UpdateMode)
  | dialogFinished (compile : String → CompileResult) (vars : List String)

/-- Dispatch of each `TestEndEvent` to its handler as wired in
`IOWindow::ConnectWidgets`. -/
def handleTestEndEvent (ev : TestEndEvent) (st : WinState) : WinState :=
  match ev with
  | TestEndEvent.timerExpired => TestOutputComplete st
  | TestEndEvent.testButtonClicked => OnTestButtonClicked st
  | TestEndEvent.rangeChanged v => OnRangeChanged v st
  | TestEndEvent.updateExpressionCalled compile vars e m =>
      UpdateExpression compile vars e m st
  | TestEndEvent.dialogFinished compile vars =>
      UpdateExpression compile vars st.originalExpression UpdateMode.Normal st

/-- An event ends a running output test: the test-button click only counts
when the timer is active (otherwise it starts a test). -/
def EndsOutputTest (ev : TestEndEvent) (st : WinState) : Prop :=
  match ev with
  | TestEndEvent.testButtonClicked => st.timerActive = true
  | _ => True

/-- Modelled from the spec: one detected control of an input-detection
session — `take_results() -> ordered sequence of \x7bcontrol_name, confidence,
time\x7d`.  The detector itself (`ciface::Core::InputDetector`) lives in
InputCommon/ControllerInterface and is not part of this file's source; the
control identity is modelled as a numeric name. -/
structure DetectionResult where
  input : Nat
  confidence : ℚ
  time : ℚ
  deriving DecidableEq, Repr

/-- Modelled from the spec: the detector's state machine phases
`Idle → Sampling → Complete` (Idle is before `Start`, so a constructed
detector is Sampling or Complete). -/
inductive DetectorPhase
  | Sampling
  | Complete
  deriving DecidableEq, Repr

/-- Modelled from the spec: an input-detection session — start time baseline
snapshot per control, elapsed-time budget, and the set of
(control, confidence, detection time) results. -/
structure InputDetector where
  phase : DetectorPhase
  baseline : List (Nat × ℚ)
  detections : List DetectionResult
  elapsed : ℚ
  budget : ℚ
  deriving DecidableEq, Repr

/-- Modelled from the spec: the fixed confidence threshold a control's
deviation from baseline must exceed to be recorded. -/
def detect_threshold : ℚ := 1 / 2

/-- Modelled from the spec: `start(devices)` snapshots baseline state per
control and enters Sampling with no detections. -/
def InputDetector.Start (baseline : List (Nat × ℚ)) (budget : ℚ) :
    InputDetector :=
  ⟨DetectorPhase.Sampling, baseline, [], 0, budget⟩

/-- Deviation of a sampled value from the detector's baseline for a control. -/
def InputDetector.deviation (d : InputDetector) (input : Nat) (value : ℚ) : ℚ :=
  |value - ((d.baseline.lookup input).getD 0)|

/-- Modelled from the spec: one `update(tick)` sample at time `t` — any
control whose deviation from baseline exceeds the confidence threshold is
recorded with timestamp `t`, first-detection wins per control (never
overwritten); sampling ends when the elapsed time budget is exhausted. -/
def InputDetector.Update (d : InputDetector) (t : ℚ)
    (samples : List (Nat × ℚ)) : InputDetector :=
  let detections := samples.foldl
    (fun acc sample =>
      if detect_threshold < d.deviation sample.1 sample.2 ∧
          acc.all (fun r => r.input ≠ sample.1) then
        acc ++ [⟨sample.1, d.deviation sample.1 sample.2, t⟩]
      else acc)
    d.detections
  { d with
    detections := detections
    elapsed := t
    phase := if d.budget ≤ t then DetectorPhase.Complete else d.phase }

/-- Modelled from the spec: the result ordering of `take_results` —
detection confidence first (higher confidence ranks first), then recency
(earlier detection ranks first). -/
def detectionRank (a b : DetectionResult) : Prop :=
  b.confidence < a.confidence ∨ (a.confidence = b.confidence ∧ a.time ≤ b.time)

instance : DecidableRel detectionRank := fun a b => by
  unfold detectionRank
  infer_instance

instance : IsTotal DetectionResult detectionRank := by
  constructor
  intro a b
  unfold detectionRank
  rcases lt_trichotomy a.confidence b.confidence with h | h | h
  · exact Or.inr (Or.inl h)
  · rcases le_total a.time b.time with ht | ht
    · exact Or.inl (Or.inr ⟨h, ht⟩)
    · exact Or.inr (Or.inr ⟨h.symm, ht⟩)
  · exact Or.inl (Or.inl h)

instance : IsTrans DetectionResult detectionRank := by
  constructor
  intro a b c hab hbc
  unfold detectionRank at *
  rcases hab with h1 | ⟨h1, h1t⟩
  · rcases hbc with h2 | ⟨h2, _⟩
    · exact Or.inl (h2.trans h1)
    · exact Or.inl (h2 ▸ h1)
  · rcases hbc with h2 | ⟨h2, h2t⟩
    · exact Or.inl (h1 ▸ h2)
    · exact Or.inr ⟨h1.trans h2, h1t.trans h2t⟩

/-- Modelled from the spec: on Complete, `take_results()` returns the
detected set ordered by detection confidence then recency, and drains it —
the detector keeps no results, so a second call returns empty. -/
def InputDetector.TakeResults (d : InputDetector) :
    List DetectionResult × InputDetector :=
  (d.detections.insertionSort detectionRank, { d with detections := [] })

/-- Decide whether a character is an ASCII digit. -/
def isDigitChar (c : Char) : Bool :=
  48 ≤ c.toNat && c.toNat ≤ 57

/-- Decide whether a character is an ASCII letter. -/
def isAlphaChar (c : Char) : Bool :=
  (65 ≤ c.toNat && c.toNat ≤ 90) || (97 ≤ c.toNat && c.toNat ≤ 122)

/-- Decide whether a character is whitespace (skipped, not tokenized). -/
def isSpaceChar (c : Char) : Bool :=
  c = ' ' || c = '\t' || c = '\n' || c = '\r'

/-- Characters allowed inside a numeric literal: digits and the decimal dot. -/
def isLiteralChar (c : Char) : Bool :=
  isDigitChar c || c = '.'

/-- Modelled from the spec: the single-character token set of the lexer —
parentheses, comma, question/colon, and the operator set
`!`, `*`, `/`, `%`, `+`, `-`, `>`, `<`, `&`, `^`, `|`. -/
def operatorTokenType (c : Char) : Option TokenType :=
  if c = '(' then some TokenType.TOK_LPAREN
  else if c = ')' then some TokenType.TOK_RPAREN
  else if c = ',' then some TokenType.TOK_COMMA
  else if c = '?' then some TokenType.TOK_QUESTION
  else if c = ':' then some TokenType.TOK_COLON
  else if c = '!' then some TokenType.TOK_NOT
  else if c = '*' then some TokenType.TOK_MUL
  else if c = '/' then some TokenType.TOK_DIV
  else if c = '%' then some TokenType.TOK_MOD
  else if c = '+' then some TokenType.TOK_ADD
  else if c = '-' then some TokenType.TOK_SUB
  else if c = '>' then some TokenType.TOK_GT
  else if c = '<' then some TokenType.TOK_LT
  else if c = '&' then some TokenType.TOK_AND
  else if c = '^' then some TokenType.TOK_XOR
  else if c = '|' then some TokenType.TOK_OR
  else none

/-- Modelled from the spec: the lexer loop — scans left to right,
longest-match-first, skipping whitespace; numeric literals, barewords,
`$`-prefixed variables and the single-character tokens are recognized, each
token retaining its position and length; an unrecognized character stops
lexing with a tokenize-failure status that still returns the tokens
accumulated so far.  (The fragment exercised by the claims; the
device-control and quoted-literal token forms are not needed here.)
Each step consumes at least one character, so fuel `length + 1` suffices. -/
def tokenizeAux (fuel : Nat) (pos : Nat) (cs : List Char) (acc : List Token) :
    List Token × ParseStatus :=
  match fuel with
  | 0 => (acc.reverse, ParseStatus.TokenizeError)
  | fuel + 1 =>
    match cs with
    | [] => (acc.reverse, ParseStatus.Successful)
    | c :: rest =>
      if isSpaceChar c then
        tokenizeAux fuel (pos + 1) rest acc
      else if isDigitChar c then
        let ds := (c :: rest).takeWhile isLiteralChar
        tokenizeAux fuel (pos + ds.length) ((c :: rest).drop ds.length)
          (⟨TokenType.TOK_LITERAL, pos, ds.length, String.mk ds⟩ :: acc)
      else if isAlphaChar c then
        let ds := (c :: rest).takeWhile isAlphaChar
        tokenizeAux fuel (pos + ds.length) ((c :: rest).drop ds.length)
          (⟨TokenType.TOK_BAREWORD, pos, ds.length, String.mk ds⟩ :: acc)
      else if c = '$' then
        let ds := rest.takeWhile isAlphaChar
        tokenizeAux fuel (pos + 1 + ds.length) (rest.drop ds.length)
          (⟨TokenType.TOK_VARIABLE, pos, 1 + ds.length, String.mk ds⟩ :: acc)
      else
        match operatorTokenType c with
        | some tt =>
          tokenizeAux fuel (pos + 1) rest (⟨tt, pos, 1, String.mk [c]⟩ :: acc)
        | none => (acc.reverse, ParseStatus.TokenizeError)

/-- Modelled from the spec: `tokenize(text) -> (tokens, status)`. -/
def tokenize (text : String) : List Token × ParseStatus :=
  tokenizeAux (text.toList.length + 1) 0 text.toList []

/-- Unary operators of the expression language. -/
inductive UnaryOp
  | LogicalNot
  | Negate
  deriving DecidableEq, Repr

/-- Binary operators of the expression language. -/
inductive BinaryOp
  | Mul
  | Div
  | Mod
  | Add
  | Sub
  | Gt
  | Lt
  | BitAnd
  | BitXor
  | BitOr
  deriving DecidableEq, Repr

/-- Modelled from the spec: the expression tree — Literal, VariableRef,
UnaryOp, BinaryOp, Conditional, comma-sequence and FunctionCall nodes
(the device ControlRef node is not needed by the claims). -/
inductive Expr
  | literal (v : ℚ)
  | varRef (name : String)
  | unary (op : UnaryOp) (e : Expr)
  | binary (op : BinaryOp) (l r : Expr)
  | cond (c t f : Expr)
  | seq (l r : Expr)
  | call (name : String) (args : List Expr)
  deriving Repr

/-- Numeric value of a digit string. -/
def digitsToNat (cs : List Char) : Nat :=
  cs.foldl (fun n c => n * 10 + (c.toNat - 48)) 0

/-- Numeric value of a literal token's payload (digits with an optional
fractional part). -/
def parseLiteralValue (s : String) : ℚ :=
  match s.toList.span isDigitChar with
  | (ip, []) => (digitsToNat ip : ℚ)
  | (ip, _ :: fp) => (digitsToNat ip : ℚ) + (digitsToNat fp : ℚ) / ((10 : ℚ) ^ fp.length)

/-- Modelled from the spec: which binary combinations live at which
precedence level, highest to lowest — `*` `/` `%` (level 5), `+` `-`
(level 4), comparisons `>` `<` (level 3), bitwise `&` `^` `|` (level 2),
comma-sequence (level 0, the lowest).  Ternary sits at level 1 and unary and
function-call above level 5. -/
def levelCombine (level : Nat) (t : TokenType) : Option (Expr → Expr → Expr) :=
  match level, t with
  | 0, TokenType.TOK_COMMA => some Expr.seq
  | 2, TokenType.TOK_AND => some (Expr.binary BinaryOp.BitAnd)
  | 2, TokenType.TOK_XOR => some (Expr.binary BinaryOp.BitXor)
  | 2, TokenType.TOK_OR => some (Expr.binary BinaryOp.BitOr)
  | 3, TokenType.TOK_GT => some (Expr.binary BinaryOp.Gt)
  | 3, TokenType.TOK_LT => some (Expr.binary BinaryOp.Lt)
  | 4, TokenType.TOK_ADD => some (Expr.binary BinaryOp.Add)
  | 4, TokenType.TOK_SUB => some (Expr.binary BinaryOp.Sub)
  | 5, TokenType.TOK_MUL => some (Expr.binary BinaryOp.Mul)
  | 5, TokenType.TOK_DIV => some (Expr.binary BinaryOp.Div)
  | 5, TokenType.TOK_MOD => some (Expr.binary BinaryOp.Mod)
  | _, _ => none

mutual

/-- Modelled from the spec: recursive-descent parsing at a precedence level,
lowest (0, comma-sequence) to highest (7, atoms); ternary `? :` at level 1 is
right-associative, unary `!`/`-` at level 6 binds tighter than every binary
operator, and parentheses (inside `parseAtom`) override precedence.  `fuel`
strictly decreases on every recursive call. -/
def parsePrec (fuel : Nat) (level : Nat) (ts : List Token) :
    Option (Expr × List Token) :=
  match fuel with
  | 0 => none
  | fuel + 1 =>
    if level = 1 then
      match parsePrec fuel 2 ts with
      | none => none
      | some (c, ts2) =>
        match ts2 with
        | t :: rest =>
          if t.type = TokenType.TOK_QUESTION then
            match parsePrec fuel 1 rest with
            | none => none
            | some (tb, ts3) =>
              match ts3 with
              | t2 :: rest2 =>
                if t2.type = TokenType.TOK_COLON then
                  match parsePrec fuel 1 rest2 with
                  | none => none
                  | some (fb, ts4) => some (Expr.cond c tb fb, ts4)
                else none
              | [] => none
          else some (c, ts2)
        | [] => some (c, ts2)
    else if level = 6 then
      match ts with
      | t :: rest =>
        if t.type = TokenType.TOK_NOT then
          match parsePrec fuel 6 rest with
          | none => none
          | some (e, ts2) => some (Expr.unary UnaryOp.LogicalNot e, ts2)
        else if t.type = TokenType.TOK_SUB then
          match parsePrec fuel 6 rest with
          | none => none
          | some (e, ts2) => some (Expr.unary UnaryOp.Negate e, ts2)
        else parseAtom fuel ts
      | [] => none
    else if 7 ≤ level then
      parseAtom fuel ts
    else
      match parsePrec fuel (level + 1) ts with
      | none => none
      | some (l, ts2) => parseLoop fuel level l ts2

/-- Left-associative iteration for the binary levels of `parsePrec`. -/
def parseLoop (fuel : Nat) (level : Nat) (left : Expr) (ts : List Token) :
    Option (Expr × List Token) :=
  match fuel with
  | 0 => none
  | fuel + 1 =>
    match ts with
    | t :: rest =>
      match levelCombine level t.type with
      | some comb =>
        match parsePrec fuel (level + 1) rest with
        | none => none
        | some (r, ts2) => parseLoop fuel level (comb left r) ts2
      | none => some (left, ts)
    | [] => some (left, ts)

/-- Modelled from the spec: atoms — numeric literals, `$`-variables,
parenthesized subexpressions, and function calls
`name(arg, arg, ...)` (function-call is the highest-precedence form). -/
def parseAtom (fuel : Nat) (ts : List Token) : Option (Expr × List Token) :=
  match fuel with
  | 0 => none
  | fuel + 1 =>
    match ts with
    | [] => none
    | t :: rest =>
      if t.type = TokenType.TOK_LITERAL then
        some (Expr.literal (parseLiteralValue t.data), rest)
      else if t.type = TokenType.TOK_VARIABLE then
        some (Expr.varRef t.data, rest)
      else if t.type = TokenType.TOK_LPAREN then
        match parsePrec fuel 0 rest with
        | none => none
        | some (e, ts2) =>
          match ts2 with
          | t2 :: rest2 =>
            if t2.type = TokenType.TOK_RPAREN then some (e, rest2) else none
          | [] => none
      else if t.type = TokenType.TOK_BAREWORD then
        match rest with
        | t2 :: rest2 =>
          if t2.type = TokenType.TOK_LPAREN then
            match rest2 with
            | t3 :: rest3 =>
              if t3.type = TokenType.TOK_RPAREN then
                some (Expr.call t.data [], rest3)
              else parseArgs fuel t.data [] rest2
            | [] => none
          else none
        | [] => none
      else none

/-- Comma-separated argument list of a function call, closed by `)`;
each argument is parsed at the ternary level so the separating commas are
not taken as comma-sequences. -/
def parseArgs (fuel : Nat) (name : String) (acc : List Expr) (ts : List Token) :
    Option (Expr × List Token) :=
  match fuel with
  | 0 => none
  | fuel + 1 =>
    match parsePrec fuel 1 ts with
    | none => none
    | some (a, ts2) =>
      match ts2 with
      | t :: rest =>
        if t.type = TokenType.TOK_COMMA then
          parseArgs fuel name (acc ++ [a]) rest
        else if t.type = TokenType.TOK_RPAREN then
          some (Expr.call name (acc ++ [a]), rest)
        else none
      | [] => none

end

/-- Modelled from the spec: `parse(tokens) -> (tree | error)`, reduced to the
tree option; the whole token stream must be consumed.  Empty input is the
distinguished empty-expression case, not a tree. -/
def parseExprTokens (tokens : List Token) : Option Expr :=
  match tokens with
  | [] => none
  | _ =>
    match parsePrec (16 * (tokens.length + 2)) 0 tokens with
    | some (e, []) => some e
    | _ => none

/-- Nonzero scalars count as true. -/
def truthy (v : ℚ) : Bool :=
  decide (v ≠ 0)

/-- Semantics of the unary operators. -/
def applyUnary (op : UnaryOp) (v : ℚ) : ℚ :=
  match op with
  | UnaryOp.LogicalNot => if truthy v then 0 else 1
  | UnaryOp.Negate => -v

/-- Modelled from the spec: semantics of the binary operators — boolean-like
operators treat nonzero as true; `/` and `%` by zero produce the documented
sentinel 0 rather than failing, and the second component records that a
division or modulo by zero was actually executed. -/
def applyBinary (op : BinaryOp) (a b : ℚ) : ℚ × Bool :=
  match op with
  | BinaryOp.Mul => (a * b, false)
  | BinaryOp.Div => if b = 0 then (0, true) else (a / b, false)
  | BinaryOp.Mod => if b = 0 then (0, true) else (a - b * (⌊a / b⌋ : ℚ), false)
  | BinaryOp.Add => (a + b, false)
  | BinaryOp.Sub => (a - b, false)
  | BinaryOp.Gt => (if b < a then 1 else 0, false)
  | BinaryOp.Lt => (if a < b then 1 else 0, false)
  | BinaryOp.BitAnd => (if truthy a && truthy b then 1 else 0, false)
  | BinaryOp.BitXor => (if truthy a != truthy b then 1 else 0, false)
  | BinaryOp.BitOr => (if truthy a || truthy b then 1 else 0, false)

/-- Result of evaluating an expression node: the scalar value, whether a
division or modulo by zero was executed anywhere during the evaluation, and
the names of the function calls that were executed, in order. -/
structure EvalOut where
  value : ℚ
  divByZero : Bool
  calls : List String
  deriving DecidableEq, Repr

/-- Arguments of an executed function call: their values plus the merged
effect records. -/
structure ArgsOut where
  values : List ℚ
  divByZero : Bool
  calls : List String
  deriving DecidableEq, Repr

mutual

/-- Modelled from the spec: synchronous evaluation of an expression tree —
the ternary `cond ? a : b` evaluates only the selected branch
(short-circuit), so effects in the unselected branch do not execute; a
variable read of an unset name yields 0; a function call evaluates its
arguments and then the function resolved by the context-sensitive table
`fns`, an unknown name yielding the defined neutral value 0, never a
failure.  The record also traces which divisions by zero and which function
calls actually executed. -/
def eval (fns : String → Option (List ℚ → ℚ)) (vt : List (String × ℚ)) :
    Expr → EvalOut
  | Expr.literal v => ⟨v, false, []⟩
  | Expr.varRef name => ⟨(vt.lookup name).getD 0, false, []⟩
  | Expr.unary op e =>
    let r := eval fns vt e
    ⟨applyUnary op r.value, r.divByZero, r.calls⟩
  | Expr.binary op l r =>
    let a := eval fns vt l
    let b := eval fns vt r
    let vb := applyBinary op a.value b.value
    ⟨vb.1, a.divByZero || b.divByZero || vb.2, a.calls ++ b.calls⟩
  | Expr.cond c t f =>
    let cv := eval fns vt c
    if truthy cv.value then
      let tv := eval fns vt t
      ⟨tv.value, cv.divByZero || tv.divByZero, cv.calls ++ tv.calls⟩
    else
      let fv := eval fns vt f
      ⟨fv.value, cv.divByZero || fv.divByZero, cv.calls ++ fv.calls⟩
  | Expr.seq l r =>
    let a := eval fns vt l
    let b := eval fns vt r
    ⟨b.value, a.divByZero || b.divByZero, a.calls ++ b.calls⟩
  | Expr.call name args =>
    let rs := evalArgs fns vt args
    ⟨((fns name).map (fun f => f rs.values)).getD 0, rs.divByZero, name :: rs.calls⟩

/-- Evaluation of a function call's argument list, left to right. -/
def evalArgs (fns : String → Option (List ℚ → ℚ)) (vt : List (String × ℚ)) :
    List Expr → ArgsOut
  | [] => ⟨[], false, []⟩
  | e :: es =>
    let r := eval fns vt e
    let rest := evalArgs fns vt es
    ⟨r.value :: rest.values, r.divByZero || rest.divByZero, r.calls ++ rest.calls⟩

end

/-- Lex and parse an expression string; `none` when tokenization or parsing
fails or the text is empty. -/
def parseString (text : String) : Option Expr :=
  match tokenize text with
  | (tokens, ParseStatus.Successful) => parseExprTokens tokens
  | _ => none

/-- Full pipeline: lex, parse and evaluate an expression string with no
variables and no resolvable functions. -/
def evalString (text : String) : Option EvalOut :=
  (parseString text).map (eval (fun _ => none) [])

/-- The bound on the committed range value: 10.0 for input references
(1000 percent), 1.0 for output references (100 percent). -/
def range_bound (t : WindowType) : ℚ :=
  if t = WindowType.Input then 10 else 1

/-- A concrete dialog state used to instantiate the theorems below. -/
def sampleWinState : WinState :=
  ⟨⟨"", ParseStatus.EmptyExpression, none, 0, 1⟩, false, 0, [], ⟨false, ""⟩, ""⟩

/-- A concrete dialog state with a running output test. -/
def sampleActiveWinState : WinState :=
  { sampleWinState with timerActive := true, outputState := 1 }

/-- Claim C1: when tokenization of the editor text succeeds but parsing
fails, the highlighter appends exactly one extra token: a copy of the
parser's offending token with its type changed to `TOK_INVALID`, keeping its
`string_position` and `string_length`; no token is appended when parsing
succeeds, and none when tokenization fails. -/
theorem highlight_invalid_token_marking
    (tokens : List Token) (pt : List Token → ParseResult) :
    ((pt tokens).status ≠ ParseStatus.Successful →
      HighlightTokens tokens ParseStatus.Successful pt =
        tokens ++ [⟨TokenType.TOK_INVALID, (pt tokens).token.string_position,
                    (pt tokens).token.string_length, (pt tokens).token.data⟩]) ∧
    ((pt tokens).status = ParseStatus.Successful →
      HighlightTokens tokens ParseStatus.Successful pt = tokens) ∧
    (∀ ts : ParseStatus, ts ≠ ParseStatus.Successful →
      HighlightTokens tokens ts pt = tokens) := by
  refine ⟨fun h => ?_, fun h => ?_, fun ts hts => ?_⟩
  · unfold HighlightTokens
    rw [if_pos rfl, if_pos (fun hs => h hs.symm)]
  · unfold HighlightTokens
    rw [if_pos rfl, if_neg (fun hne => hne h.symm)]
  · unfold HighlightTokens
    rw [if_neg (fun hs => hts hs.symm)]

/-- Witness for C1 at a concrete token list and parser outcome. -/
theorem highlight_invalid_token_marking_witness :
    HighlightTokens [⟨TokenType.TOK_AND, 0, 1, "&"⟩] ParseStatus.Successful
        (fun _ => ⟨ParseStatus.SyntaxError, ⟨TokenType.TOK_AND, 2, 1, "&"⟩⟩) =
      [⟨TokenType.TOK_AND, 0, 1, "&"⟩, ⟨TokenType.TOK_INVALID, 2, 1, "&"⟩] :=
  (highlight_invalid_token_marking [⟨TokenType.TOK_AND, 0, 1, "&"⟩]
    (fun _ => ⟨ParseStatus.SyntaxError, ⟨TokenType.TOK_AND, 2, 1, "&"⟩⟩)).1 (by decide)

/-- Claim C2: after a (forced) recompile, the displayed status is a total
function of the compile outcome: an error message turns the indicator off
and shows that message; `EmptyExpression` turns it off with empty text; any
other non-`Successful` status turns it off with the text
`Invalid Expression.`; and the live state indicator is painted exactly when
the status is `Successful` with no error. -/
theorem update_expression_status_display (compile : String → CompileResult)
    (vars : List String) (new_expression : String) (st : WinState) :
    (UpdateExpression compile vars new_expression UpdateMode.Force st).parseText =
      UpdateExpressionDisplay (compile new_expression).error
        (compile new_expression).status ∧
    (∀ e, (compile new_expression).error = some e →
      UpdateExpressionDisplay (compile new_expression).error
        (compile new_expression).status = ⟨false, e⟩) ∧
    ((compile new_expression).error = none →
      (compile new_expression).status = ParseStatus.EmptyExpression →
      UpdateExpressionDisplay (compile new_expression).error
        (compile new_expression).status = ⟨false, ""⟩) ∧
    ((compile new_expression).error = none →
      (compile new_expression).status ≠ ParseStatus.EmptyExpression →
      (compile new_expression).status ≠ ParseStatus.Successful →
      UpdateExpressionDisplay (compile new_expression).error
        (compile new_expression).status = ⟨false, "Invalid Expression."⟩) ∧
    ((compile new_expression).error = none →
      (compile new_expression).status = ParseStatus.Successful →
      UpdateExpressionDisplay (compile new_expression).error
        (compile new_expression).status = ⟨true, ""⟩) ∧
    ((UpdateExpressionDisplay (compile new_expression).error
        (compile new_expression).status).indicator = true ↔
      (compile new_expression).error = none ∧
      (compile new_expression).status = ParseStatus.Successful) := by
  refine ⟨?_, fun e he => ?_, fun he hs => ?_, fun he hs1 hs2 => ?_,
    fun he hs => ?_, ?_⟩
  · simp [UpdateExpression]
  · simp [UpdateExpressionDisplay, he]
  · simp [UpdateExpressionDisplay, he, hs]
  · simp [UpdateExpressionDisplay, he, hs1, hs2]
  · simp [UpdateExpressionDisplay, he, hs]
  · rcases he : (compile new_expression).error with _ | e
    · cases hs : (compile new_expression).status <;>
        simp [UpdateExpressionDisplay, he, hs]
    · simp [UpdateExpressionDisplay, he]

/-- Witness for C2 at a concrete compile outcome (success, no error). -/
theorem update_expression_status_display_witness :
    UpdateExpressionDisplay (none : Option String) ParseStatus.Successful =
      ⟨true, ""⟩ :=
  (update_expression_status_display
      (fun _ => ⟨none, ParseStatus.Successful, 0⟩) [] "" sampleWinState).2.2.2.2.1
    rfl rfl

/-- Claim C4: the highlighter lexes the single-byte-per-character Latin-1
normalization of the editor text: the normalization maps each character to
exactly one byte (lengths agree), the lexer is run on the normalized text
and never on the original encoding, and token spans that are in range for
the normalized text are in range as character offsets of the original
text. -/
theorem highlight_lexes_normalized_text (text : List Nat)
    (tokenize_fn : List Nat → List Token × ParseStatus)
    (hwf : ∀ input tok, tok ∈ (tokenize_fn input).1 →
      tok.string_position + tok.string_length ≤ input.length) :
    (toLatin1 text).length = text.length ∧
    HighlightLex tokenize_fn text = tokenize_fn (toLatin1 text) ∧
    ∀ tok ∈ (HighlightLex tokenize_fn text).1,
      tok.string_position + tok.string_length ≤ text.length := by
  refine ⟨List.length_map _ _, rfl, fun tok htok => ?_⟩
  have h := hwf (toLatin1 text) tok htok
  simpa [toLatin1] using h

/-- Witness for C4 on text containing a multi-byte character (codepoint
8721) and a lexer producing one whole-text token. -/
theorem highlight_lexes_normalized_text_witness :
    (toLatin1 [72, 8721]).length = [72, 8721].length ∧
    HighlightLex (fun input => ([⟨TokenType.TOK_BAREWORD, 0, input.length, ""⟩],
        ParseStatus.Successful)) [72, 8721] =
      (fun input => ([⟨TokenType.TOK_BAREWORD, 0, input.length, ""⟩],
        ParseStatus.Successful)) (toLatin1 [72, 8721]) ∧
    ∀ tok ∈ (HighlightLex (fun input => ([⟨TokenType.TOK_BAREWORD, 0,
        input.length, ""⟩], ParseStatus.Successful)) [72, 8721]).1,
      tok.string_position + tok.string_length ≤ [72, 8721].length :=
  highlight_lexes_normalized_text [72, 8721]
    (fun input => ([⟨TokenType.TOK_BAREWORD, 0, input.length, ""⟩],
      ParseStatus.Successful))
    (by intro input tok htok; simp at htok; simp [htok])

/-- The spinbox bound evaluated for input references. -/
theorem scalar_min_max_input : scalar_min_max WindowType.Input = 1000 := rfl

/-- The spinbox bound evaluated for output references. -/
theorem scalar_min_max_output : scalar_min_max WindowType.Output = 100 := rfl

/-- The range bound evaluated for input references. -/
theorem range_bound_input : range_bound WindowType.Input = 10 := rfl

/-- The range bound evaluated for output references. -/
theorem range_bound_output : range_bound WindowType.Output = 1 := rfl

/-- Claim C5: the committed range is the spinbox percentage divided by 100,
and the spinbox bounds confine it to [-10, 10] for input references and
[-1, 1] for output references, negative values included. -/
theorem range_spinbox_bounds (t : WindowType) (value : Int) (st : WinState)
    (hmin : -scalar_min_max t ≤ value) (hmax : value ≤ scalar_min_max t) :
    (OnRangeChanged value st).ref.range = (value : ℚ) / 100 ∧
    -range_bound t ≤ (OnRangeChanged value st).ref.range ∧
    (OnRangeChanged value st).ref.range ≤ range_bound t := by
  have hr : (OnRangeChanged value st).ref.range = (value : ℚ) / 100 := by
    simp [OnRangeChanged, TestOutputComplete]
  have h100 : (0 : ℚ) < 100 := by norm_num
  refine ⟨hr, ?_, ?_⟩ <;> rw [hr] <;> cases t
  · rw [range_bound_input]
    rw [scalar_min_max_input] at hmin
    rw [le_div_iff₀ h100]
    have hv : ((-1000 : Int) : ℚ) ≤ (value : ℚ) := by exact_mod_cast hmin
    push_cast at hv
    linarith
  · rw [range_bound_output]
    rw [scalar_min_max_output] at hmin
    rw [le_div_iff₀ h100]
    have hv : ((-100 : Int) : ℚ) ≤ (value : ℚ) := by exact_mod_cast hmin
    push_cast at hv
    linarith
  · rw [range_bound_input]
    rw [scalar_min_max_input] at hmax
    rw [div_le_iff₀ h100]
    have hv : (value : ℚ) ≤ ((1000 : Int) : ℚ) := by exact_mod_cast hmax
    push_cast at hv
    linarith
  · rw [range_bound_output]
    rw [scalar_min_max_output] at hmax
    rw [div_le_iff₀ h100]
    have hv : (value : ℚ) ≤ ((100 : Int) : ℚ) := by exact_mod_cast hmax
    push_cast at hv
    linarith

/-- Witness for C5: an output reference committed at the spinbox minimum
-100 percent (polarity inversion) yields range -1, within bounds. -/
theorem range_spinbox_bounds_witness :
    (OnRangeChanged (-100) sampleWinState).ref.range = ((-100 : Int) : ℚ) / 100 ∧
    -range_bound WindowType.Output ≤ (OnRangeChanged (-100) sampleWinState).ref.range ∧
    (OnRangeChanged (-100) sampleWinState).ref.range ≤ range_bound WindowType.Output :=
  range_spinbox_bounds WindowType.Output (-100) sampleWinState
    (by rw [scalar_min_max_output]) (by rw [scalar_min_max_output]; norm_num)

/-- Claim C3: `take_results` returns the detected controls ordered by
detection confidence then recency (earlier-detected first on equal
confidence), and results are drained — a second call after the first
returns the empty sequence; in the spec's scenario (baseline ctrl1 = 0 and
ctrl2 = 0, ctrl2 sampled at 1 at t = 0.1 s, ctrl1 sampled at 1 at
t = 0.05 s) the results are ctrl1 before ctrl2. -/
theorem input_detector_take_results_ordered_and_drained (d : InputDetector) :
    List.Sorted detectionRank d.TakeResults.1 ∧
    d.TakeResults.2.TakeResults.1 = [] ∧
    ((((InputDetector.Start [(1, 0), (2, 0)] 2).Update (1/10) [(2, 1)]).Update
        (1/20) [(1, 1)]).TakeResults.1).map DetectionResult.input = [1, 2] := by
  refine ⟨?_, ?_, ?_⟩
  · exact List.sorted_insertionSort detectionRank d.detections
  · simp [InputDetector.TakeResults, List.insertionSort]
  · have hlook2 : List.lookup 2 [(1, (0 : ℚ)), (2, 0)] = some 0 := by rfl
    have hlook1 : List.lookup 1 [(1, (0 : ℚ)), (2, 0)] = some 0 := by rfl
    norm_num [InputDetector.Start, InputDetector.Update, InputDetector.deviation,
      detect_threshold, InputDetector.TakeResults, List.insertionSort,
      List.orderedInsert, hlook1, hlook2, detectionRank]

/-- Claim C6: the expression `1 ? 5 : (1/0)` parses to a conditional whose
false branch is a division by zero, evaluates to 5 without raising or
failing, and the division by zero in the unselected branch is never
executed (while evaluating that branch alone would execute it); a function
call placed in an unselected branch is likewise not executed, while one in
the selected branch is. -/
theorem ternary_short_circuit_eval :
    parseString "1 ? 5 : (1/0)" =
      some (Expr.cond (Expr.literal 1) (Expr.literal 5)
        (Expr.binary BinaryOp.Div (Expr.literal 1) (Expr.literal 0))) ∧
    evalString "1 ? 5 : (1/0)" = some ⟨5, false, []⟩ ∧
    (eval (fun _ => none) []
      (Expr.binary BinaryOp.Div (Expr.literal 1) (Expr.literal 0))).divByZero = true ∧
    evalString "1 ? 5 : f(1)" = some ⟨5, false, []⟩ ∧
    evalString "0 ? f(1) : 5" = some ⟨5, false, []⟩ ∧
    evalString "0 ? 5 : f(1)" = some ⟨0, false, ["f"]⟩ := by
  exact ⟨rfl, rfl, rfl, rfl, rfl, rfl⟩

/-- Claim C7: the parser honors the standard precedence chain — `1 + 2 * 3`
evaluates to 7 and `(1 + 2) * 3` to 9, with function-call above unary
`!`/`-`, above `*` `/` `%`, above `+` `-`, above comparisons `>` `<`, above
bitwise `&` `^` `|`, above ternary `? :`, above comma-sequence, and
parentheses overriding precedence, as the parse trees below show level by
level. -/
theorem operator_precedence :
    evalString "1 + 2 * 3" = some ⟨7, false, []⟩ ∧
    evalString "(1 + 2) * 3" = some ⟨9, false, []⟩ ∧
    parseString "1 + 2 * 3" =
      some (Expr.binary BinaryOp.Add (Expr.literal 1)
        (Expr.binary BinaryOp.Mul (Expr.literal 2) (Expr.literal 3))) ∧
    parseString "(1 + 2) * 3" =
      some (Expr.binary BinaryOp.Mul
        (Expr.binary BinaryOp.Add (Expr.literal 1) (Expr.literal 2))
        (Expr.literal 3)) ∧
    parseString "f(1) + 2" =
      some (Expr.binary BinaryOp.Add (Expr.call "f" [Expr.literal 1])
        (Expr.literal 2)) ∧
    parseString "!1 * 2" =
      some (Expr.binary BinaryOp.Mul
        (Expr.unary UnaryOp.LogicalNot (Expr.literal 1)) (Expr.literal 2)) ∧
    parseString "1 + 2 % 3" =
      some (Expr.binary BinaryOp.Add (Expr.literal 1)
        (Expr.binary BinaryOp.Mod (Expr.literal 2) (Expr.literal 3))) ∧
    parseString "1 < 2 + 3" =
      some (Expr.binary BinaryOp.Lt (Expr.literal 1)
        (Expr.binary BinaryOp.Add (Expr.literal 2) (Expr.literal 3))) ∧
    parseString "1 & 2 < 3" =
      some (Expr.binary BinaryOp.BitAnd (Expr.literal 1)
        (Expr.binary BinaryOp.Lt (Expr.literal 2) (Expr.literal 3))) ∧
    parseString "1 | 2 ? 3 : 4" =
      some (Expr.cond
        (Expr.binary BinaryOp.BitOr (Expr.literal 1) (Expr.literal 2))
        (Expr.literal 3) (Expr.literal 4)) ∧
    parseString "1, 2 ? 3 : 4" =
      some (Expr.seq (Expr.literal 1)
        (Expr.cond (Expr.literal 2) (Expr.literal 3) (Expr.literal 4))) := by
  refine ⟨?_, ?_, rfl, rfl, rfl, rfl, rfl, rfl, rfl, rfl, rfl⟩
  · have h : parseString "1 + 2 * 3" =
        some (Expr.binary BinaryOp.Add (Expr.literal 1)
          (Expr.binary BinaryOp.Mul (Expr.literal 2) (Expr.literal 3))) := rfl
    simp [evalString, h, eval, applyBinary]
    norm_num
  · have h : parseString "(1 + 2) * 3" =
        some (Expr.binary BinaryOp.Mul
          (Expr.binary BinaryOp.Add (Expr.literal 1) (Expr.literal 2))
          (Expr.literal 3)) := rfl
    simp [evalString, h, eval, applyBinary]
    norm_num

/-- Claim C8: the Clear button only clears the editor; any other button
recompiles the current editor text, a resulting `SyntaxError` parse status
warns and leaves the dialog open with the original expression unchanged,
and every other status — `TokenizeError` and `EmptyExpression` included —
accepts and overwrites the stored original expression with the newly
committed one. -/
theorem dialog_button_accept_policy (compile : String → CompileResult)
    (vars : List String) (editor_text : String) (st : WinState) :
    OnDialogButtonPressed compile vars true editor_text st =
      (st, ButtonOutcome.ClearedText) ∧
    ((UpdateExpression compile vars editor_text UpdateMode.Normal st).ref.status =
        ParseStatus.SyntaxError →
      OnDialogButtonPressed compile vars false editor_text st =
        (UpdateExpression compile vars editor_text UpdateMode.Normal st,
         ButtonOutcome.Warned)) ∧
    ((UpdateExpression compile vars editor_text UpdateMode.Normal st).ref.status ≠
        ParseStatus.SyntaxError →
      OnDialogButtonPressed compile vars false editor_text st =
        ({ UpdateExpression compile vars editor_text UpdateMode.Normal st with
            originalExpression :=
              (UpdateExpression compile vars editor_text
                UpdateMode.Normal st).ref.expression },
         ButtonOutcome.Accepted)) := by
  refine ⟨rfl, fun h => ?_, fun h => ?_⟩
  · unfold OnDialogButtonPressed
    rw [if_neg (by simp), if_pos h]
  · unfold OnDialogButtonPressed
    rw [if_neg (by simp), if_neg h]

/-- Witness for C8: with a compile outcome of `TokenizeError` the dialog
accepts and the original expression is overwritten — no warning. -/
theorem dialog_button_accept_policy_witness :
    OnDialogButtonPressed (fun _ => ⟨none, ParseStatus.TokenizeError, 0⟩) []
        false "x" sampleWinState =
      ({ UpdateExpression (fun _ => ⟨none, ParseStatus.TokenizeError, 0⟩) []
            "x" UpdateMode.Normal sampleWinState with
          originalExpression :=
            (UpdateExpression (fun _ => ⟨none, ParseStatus.TokenizeError, 0⟩) []
              "x" UpdateMode.Normal sampleWinState).ref.expression },
       ButtonOutcome.Accepted) :=
  (dialog_button_accept_policy (fun _ => ⟨none, ParseStatus.TokenizeError, 0⟩)
      [] "x" sampleWinState).2.2
    (by simp [UpdateExpression, TestOutputComplete, sampleWinState])

/-- Claim C9: every event that ends or interrupts a running output test —
timer expiry, clicking the test button again, changing the range, updating
the expression, the dialog closing — goes through the `TestOutputComplete`
handler, so afterwards the timer is stopped and the written output state is
0. -/
theorem output_test_always_reset (ev : TestEndEvent) (st : WinState)
    (hev : EndsOutputTest ev st) :
    (handleTestEndEvent ev st).timerActive = false ∧
    (handleTestEndEvent ev st).outputState = 0 := by
  cases ev with
  | timerExpired => simp [handleTestEndEvent, TestOutputComplete]
  | testButtonClicked =>
    simp only [EndsOutputTest] at hev
    simp [handleTestEndEvent, OnTestButtonClicked, hev, TestOutputComplete]
  | rangeChanged v =>
    simp [handleTestEndEvent, OnRangeChanged, TestOutputComplete]
  | updateExpressionCalled compile vars e m =>
    simp only [handleTestEndEvent, UpdateExpression, TestOutputComplete]
    split <;> simp
  | dialogFinished compile vars =>
    simp only [handleTestEndEvent, UpdateExpression, TestOutputComplete]
    split <;> simp

/-- Witness for C9: clicking the test button while a test is running stops
the timer and zeroes the output. -/
theorem output_test_always_reset_witness :
    (handleTestEndEvent TestEndEvent.testButtonClicked
      sampleActiveWinState).timerActive = false ∧
    (handleTestEndEvent TestEndEvent.testButtonClicked
      sampleActiveWinState).outputState = 0 :=
  output_test_always_reset TestEndEvent.testButtonClicked sampleActiveWinState rfl

/-- Claim C10: a non-forced `UpdateExpression` whose new text equals the
reference's current expression returns right after the `TestOutputComplete`
emission: the reference (expression, status, error, tree) is unchanged, the
variable list is not rebuilt, the status line is not rewritten, and the only
effects are the stopped timer and zeroed output state. -/
theorem update_expression_early_return (compile : String → CompileResult)
    (vars : List String) (new_expression : String) (st : WinState)
    (heq : new_expression = st.ref.expression) :
    UpdateExpression compile vars new_expression UpdateMode.Normal st =
      TestOutputComplete st ∧
    (UpdateExpression compile vars new_expression UpdateMode.Normal st).ref =
      st.ref ∧
    (UpdateExpression compile vars new_expression
      UpdateMode.Normal st).variablesList = st.variablesList ∧
    (UpdateExpression compile vars new_expression
      UpdateMode.Normal st).parseText = st.parseText ∧
    (UpdateExpression compile vars new_expression
      UpdateMode.Normal st).timerActive = false ∧
    (UpdateExpression compile vars new_expression
      UpdateMode.Normal st).outputState = 0 := by
  have h : UpdateExpression compile vars new_expression UpdateMode.Normal st =
      TestOutputComplete st := by
    unfold UpdateExpression
    rw [if_pos ⟨by simp, heq⟩]
  rw [h]
  exact ⟨rfl, rfl, rfl, rfl, rfl, rfl⟩

/-- Witness for C10: committing the unchanged (empty) expression with a
compile function that would report a syntax error leaves the reference and
status line untouched, proving the compile is not invoked. -/
theorem update_expression_early_return_witness :
    UpdateExpression (fun _ => ⟨some "E", ParseStatus.SyntaxError, 7⟩) ["v"]
        "" UpdateMode.Normal sampleWinState = TestOutputComplete sampleWinState ∧
    (UpdateExpression (fun _ => ⟨some "E", ParseStatus.SyntaxError, 7⟩) ["v"]
        "" UpdateMode.Normal sampleWinState).ref = sampleWinState.ref ∧
    (UpdateExpression (fun _ => ⟨some "E", ParseStatus.SyntaxError, 7⟩) ["v"]
        "" UpdateMode.Normal sampleWinState).variablesList =
      sampleWinState.variablesList ∧
    (UpdateExpression (fun _ => ⟨some "E", ParseStatus.SyntaxError, 7⟩) ["v"]
        "" UpdateMode.Normal sampleWinState).parseText =
      sampleWinState.parseText ∧
    (UpdateExpression (fun _ => ⟨some "E", ParseStatus.SyntaxError, 7⟩) ["v"]
        "" UpdateMode.Normal sampleWinState).timerActive = false ∧
    (UpdateExpression (fun _ => ⟨some "E", ParseStatus.SyntaxError, 7⟩) ["v"]
        "" UpdateMode.Normal sampleWinState).outputState = 0 :=
  update_expression_early_return (fun _ => ⟨some "E", ParseStatus.SyntaxError, 7⟩)
    ["v"] "" sampleWinState rfl

end Dolphin
